import Mathlib

/-!
Verification of the box-filtering-and-ratio engine of calc_comp_rel.py
(functions calculate_reliability and calculate_completeness).

Modelling choices:
* floating-point values are modelled as exact rationals;
* a catalog cell that may be missing (NaN in pandas) is an Option value:
  a NaN compares false under both window bounds, so a missing cell is
  excluded by every filter, exactly as a none is here;
* the Python functions raise AssertionError on invalid arguments and
  otherwise return None or a float; this is modelled as
  Except ErrKind (Option Rat);
* the order in which the source interleaves assert statements and
  catalog filtering is captured separately by an event trace (execTrace),
  since the returned value does not depend on that order.
-/

/-- One catalog row (one star of the reference table). Numeric cells are
optional: none models a missing value (NaN). -/
structure Row where
  prot_rh20 : Option ℚ
  power : Option ℚ
  Tmag : Option ℚ
  snr : Option ℚ
  status : String
deriving DecidableEq

/-- The keyword arguments of calculate_reliability / calculate_completeness,
with the source defaults. ls, t, snr are none when not supplied. -/
structure Args where
  input_period : ℚ
  period_lower_limit : ℚ := 1
  period_upper_limit : ℚ := 1
  ls : Option ℚ := none
  ls_lower_limit : ℚ := 1/20
  ls_upper_limit : ℚ := 1/20
  t : Option ℚ := none
  t_lower_limit : ℚ := 1/2
  t_upper_limit : ℚ := 1/2
  snr : Option ℚ := none
  snr_lower_limit : ℚ := 5/2
  snr_upper_limit : ℚ := 5/2
  mode : String := "match"
deriving DecidableEq

/-- The validation failures of the two functions (the AssertionErrors of the
source, one constructor per offending field). -/
inductive ErrKind
  | invalidPeriod
  | noAuxiliaryParameter
  | invalidMode
  | invalidPower
  | invalidSNR
deriving DecidableEq

/-- Source line 72 / 149: 0.2 < input_period < 20. -/
def periodOk (a : Args) : Bool :=
  decide (1/5 < a.input_period) && decide (a.input_period < 20)

/-- Source line 73 / 150: at least one of ls, t, snr is not None. -/
def anyAux (a : Args) : Bool :=
  a.ls.isSome || a.t.isSome || a.snr.isSome

/-- Source line 74 / 151: mode is one of match, alias, recovery. -/
def modeOk (a : Args) : Bool :=
  decide (a.mode = "match") || decide (a.mode = "alias") || decide (a.mode = "recovery")

/-- Source line 86 / 165: when ls is supplied, 0 < ls < 1. -/
def lsValueOk (a : Args) : Bool :=
  match a.ls with
  | none => true
  | some l => decide (0 < l) && decide (l < 1)

/-- Source line 105 / 184: when snr is supplied, 0 < snr. -/
def snrValueOk (a : Args) : Bool :=
  match a.snr with
  | none => true
  | some s => decide (0 < s)

/-- All five validations of either function hold. -/
def ValidArgs (a : Args) : Bool :=
  periodOk a && anyAux a && modeOk a && lsValueOk a && snrValueOk a

/-- One window test of the source, e.g. lines 78-79:
(value < center + upper) and (value > center - lower), strict on both sides.
A missing value (none, i.e. NaN) fails both comparisons. -/
def inWindow (center lower upper : ℚ) (v : Option ℚ) : Bool :=
  match v with
  | none => false
  | some x => decide (center - lower < x) && decide (x < center + upper)

/-- Source lines 77-80 / 154-157: filter the table by the period axis. -/
def periodFilter (a : Args) (df : List Row) : List Row :=
  df.filter fun r =>
    inWindow a.input_period a.period_lower_limit a.period_upper_limit r.prot_rh20

/-- Source lines 83-90 / 162-169: when ls is supplied, filter by the power
column; otherwise leave the table unchanged. -/
def lsFilter (a : Args) (df : List Row) : List Row :=
  match a.ls with
  | none => df
  | some l => df.filter fun r => inWindow l a.ls_lower_limit a.ls_upper_limit r.power

/-- Source lines 93-99 / 172-178: when t is supplied, filter by the Tmag
column; otherwise leave the table unchanged. -/
def tFilter (a : Args) (df : List Row) : List Row :=
  match a.t with
  | none => df
  | some v => df.filter fun r => inWindow v a.t_lower_limit a.t_upper_limit r.Tmag

/-- Source lines 102-109 / 181-188: when snr is supplied, filter by the snr
column; otherwise leave the table unchanged. -/
def snrFilter (a : Args) (df : List Row) : List Row :=
  match a.snr with
  | none => df
  | some s => df.filter fun r => inWindow s a.snr_lower_limit a.snr_upper_limit r.snr

/-- The three auxiliary filters applied in source order (ls, then t, then
snr), each a no-op when its value is not supplied. -/
def auxFilters (a : Args) (df : List Row) : List Row :=
  snrFilter a (tFilter a (lsFilter a df))

/-- Source lines 114-122 / 193-199: select the rows matching the mode. -/
def statusFilter (mode : String) (df : List Row) : List Row :=
  if mode = "match" then df.filter fun r => decide (r.status = "match")
  else if mode = "alias" then df.filter fun r => decide (r.status = "alias")
  else df.filter fun r => decide (r.status ≠ "not_recovered")

/-- Embedding of calculate_reliability (source lines 7-122): validate, filter
by period and each supplied auxiliary axis, return None when fewer than 3
rows remain, otherwise the fraction of remaining rows matching the mode. -/
def calculate_reliability (df : List Row) (a : Args) : Except ErrKind (Option ℚ) :=
  if !periodOk a then .error .invalidPeriod
  else if !anyAux a then .error .noAuxiliaryParameter
  else if !modeOk a then .error .invalidMode
  else if !lsValueOk a then .error .invalidPower
  else if !snrValueOk a then .error .invalidSNR
  else
    let param_df := snrFilter a (tFilter a (lsFilter a (periodFilter a df)))
    if param_df.length < 3 then .ok none
    else .ok (some (((statusFilter a.mode param_df).length : ℚ) / (param_df.length : ℚ)))

/-- Embedding of calculate_completeness (source lines 125-201): validate,
filter by period only to obtain all_df, apply the auxiliary filters to get
param_df, return None when all_df has fewer than 3 rows, otherwise the
mode-matching count of param_df divided by the size of all_df. -/
def calculate_completeness (df : List Row) (a : Args) : Except ErrKind (Option ℚ) :=
  if !periodOk a then .error .invalidPeriod
  else if !anyAux a then .error .noAuxiliaryParameter
  else if !modeOk a then .error .invalidMode
  else if !lsValueOk a then .error .invalidPower
  else if !snrValueOk a then .error .invalidSNR
  else
    let all_df := periodFilter a df
    let param_df := snrFilter a (tFilter a (lsFilter a all_df))
    if all_df.length < 3 then .ok none
    else .ok (some (((statusFilter a.mode param_df).length : ℚ) / (all_df.length : ℚ)))

/-!
Event trace of one invocation: the order in which the source interleaves
its assert statements and its catalog-filtering statements. The bodies of
calculate_reliability (lines 68-109) and calculate_completeness
(lines 145-188) are textually identical in this respect, so one trace
function serves both.
-/

/-- One observable step of an invocation: a catalog filtering on a named
column, or a failing validation. -/
inductive Ev
  | filterStep (axis : String)
  | checkFail (e : ErrKind)
deriving DecidableEq

/-- Trace of the snr block (lines 102-109 / 181-188): the assert on snr
runs before the snr filter, but only when snr is supplied. -/
def auxTraceSnr (a : Args) : List Ev :=
  match a.snr with
  | none => []
  | some s => if 0 < s then [Ev.filterStep "snr"] else [Ev.checkFail ErrKind.invalidSNR]

/-- Trace of the Tmag block (lines 93-99 / 172-178), followed by the snr
block; the Tmag block has no assert. -/
def auxTraceT (a : Args) : List Ev :=
  match a.t with
  | none => auxTraceSnr a
  | some _ => Ev.filterStep "Tmag" :: auxTraceSnr a

/-- Trace of the ls block (lines 83-90 / 162-169), followed by the later
blocks: the assert on ls runs before the power filter, and a failure stops
the invocation. -/
def auxTraceLs (a : Args) : List Ev :=
  match a.ls with
  | none => auxTraceT a
  | some l =>
    if 0 < l ∧ l < 1 then Ev.filterStep "power" :: auxTraceT a
    else [Ev.checkFail ErrKind.invalidPower]

/-- Full trace of one invocation of either function: the three leading
asserts (lines 72-74 / 149-151), then the period filter (lines 77-80 /
154-157), then the auxiliary blocks in source order. -/
def execTrace (a : Args) : List Ev :=
  if !periodOk a then [Ev.checkFail ErrKind.invalidPeriod]
  else if !anyAux a then [Ev.checkFail ErrKind.noAuxiliaryParameter]
  else if !modeOk a then [Ev.checkFail ErrKind.invalidMode]
  else Ev.filterStep "prot_rh20" :: auxTraceLs a

/-- The ordering property claimed by the spec: no validation failure occurs
after a filtering step has executed. -/
def noFilterBeforeFailure : List Ev → Bool
  | [] => true
  | Ev.checkFail _ :: rest => noFilterBeforeFailure rest
  | Ev.filterStep _ :: rest =>
    rest.all fun e => match e with
      | Ev.checkFail _ => false
      | Ev.filterStep _ => true

/-!
Spec-side definitions, written from the words of the specification
(BoxFilter, StatusClassifier, ReliabilityEstimator, CompletenessEstimator)
for the refinement claims C1 and C2. They are compared against the
code-side functions above.
-/

/-- BoxFilter of the spec: keep the rows with center - lower < value and
value < center + upper on the given axis; a missing value is excluded. -/
def boxFilterSpec (center lower upper : ℚ) (proj : Row → Option ℚ) (tbl : List Row) : List Row :=
  tbl.filter fun r =>
    match proj r with
    | none => false
    | some x => decide (center - lower < x) && decide (x < center + upper)

/-- The auxiliary-axis BoxFilter of the spec: apply BoxFilter successively
for each supplied auxiliary axis (power, magnitude, snr); an absent axis
imposes no constraint. -/
def auxBoxSpec (a : Args) (tbl : List Row) : List Row :=
  let b1 := match a.ls with
    | none => tbl
    | some v => boxFilterSpec v a.ls_lower_limit a.ls_upper_limit (fun r => r.power) tbl
  let b2 := match a.t with
    | none => b1
    | some v => boxFilterSpec v a.t_lower_limit a.t_upper_limit (fun r => r.Tmag) b1
  match a.snr with
  | none => b2
  | some v => boxFilterSpec v a.snr_lower_limit a.snr_upper_limit (fun r => r.snr) b2

/-- StatusClassifier of the spec: mode match keeps status match, mode alias
keeps status alias, mode recovery keeps any status other than
not_recovered. -/
def statusClassifierSpec (mode : String) (tbl : List Row) : List Row :=
  if mode = "match" then tbl.filter fun r => decide (r.status = "match")
  else if mode = "alias" then tbl.filter fun r => decide (r.status = "alias")
  else tbl.filter fun r => decide (r.status ≠ "not_recovered")

/-- ReliabilityEstimator of the spec: box the catalog by the period axis and
every supplied auxiliary axis; under 3 rows return the undefined sentinel,
otherwise the matched fraction of the boxed rows. -/
def reliabilitySpec (df : List Row) (a : Args) : Option ℚ :=
  let boxed := auxBoxSpec a
    (boxFilterSpec a.input_period a.period_lower_limit a.period_upper_limit
      (fun r => r.prot_rh20) df)
  if boxed.length < 3 then none
  else some (((statusClassifierSpec a.mode boxed).length : ℚ) / (boxed.length : ℚ))

/-- CompletenessEstimator of the spec: box by the period axis only to get
all_in_period; under 3 rows return the undefined sentinel, otherwise apply
the auxiliary boxes and the classifier and divide by the size of
all_in_period. -/
def completenessSpec (df : List Row) (a : Args) : Option ℚ :=
  let all_in_period := boxFilterSpec a.input_period a.period_lower_limit a.period_upper_limit
    (fun r => r.prot_rh20) df
  if all_in_period.length < 3 then none
  else
    let boxed := auxBoxSpec a all_in_period
    let matched := statusClassifierSpec a.mode boxed
    some ((matched.length : ℚ) / (all_in_period.length : ℚ))

/-- Pointwise widening of the query windows: same centers, same supplied
axes, same mode, and every lower and upper limit at least as large. -/
def widenLe (a b : Args) : Bool :=
  decide (b.input_period = a.input_period) &&
  decide (b.ls = a.ls) && decide (b.t = a.t) && decide (b.snr = a.snr) &&
  decide (b.mode = a.mode) &&
  decide (a.period_lower_limit ≤ b.period_lower_limit) &&
  decide (a.period_upper_limit ≤ b.period_upper_limit) &&
  decide (a.ls_lower_limit ≤ b.ls_lower_limit) &&
  decide (a.ls_upper_limit ≤ b.ls_upper_limit) &&
  decide (a.t_lower_limit ≤ b.t_lower_limit) &&
  decide (a.t_upper_limit ≤ b.t_upper_limit) &&
  decide (a.snr_lower_limit ≤ b.snr_lower_limit) &&
  decide (a.snr_upper_limit ≤ b.snr_upper_limit)

/-!
Concrete catalogs and queries used by the scenario claim, the
counterexamples and the witnesses.
-/

/-- The 5-row scenario catalog: true periods 8.5, 9.0, 9.4, 9.6, 15, all
with measured power 0.1, all status match except the third
(not_recovered). -/
def cat8 : List Row :=
  [⟨some (17/2), some (1/10), none, none, "match"⟩,
   ⟨some 9, some (1/10), none, none, "match"⟩,
   ⟨some (47/5), some (1/10), none, none, "not_recovered"⟩,
   ⟨some (48/5), some (1/10), none, none, "match"⟩,
   ⟨some 15, some (1/10), none, none, "match"⟩]

/-- The scenario query: input_period 9, ls 0.1, default windows, given
mode. -/
def q8 (m : String) : Args :=
  { input_period := 9, ls := some (1/10), mode := m }

/-- A query whose period is valid but whose supplied ls value 2 is outside
(0,1). -/
def aInvalidLs : Args :=
  { input_period := 9, ls := some 2, mode := "match" }

/-- A 3-row catalog with all periods near 9 and powers 0.5, 0.5, 0.9, all
status match. -/
def cat9 : List Row :=
  [⟨some 9, some (1/2), none, none, "match"⟩,
   ⟨some (19/2), some (1/2), none, none, "match"⟩,
   ⟨some (17/2), some (9/10), none, none, "match"⟩]

/-- A query on cat9: input_period 9, ls 0.5 with the default 0.05 window,
mode match. -/
def q9 : Args :=
  { input_period := 9, ls := some (1/2), mode := "match" }

/-- A query with a valid ls value but an empty ls window (both limits 0). -/
def q10 : Args :=
  { input_period := 9, ls := some (1/2), ls_lower_limit := 0,
    ls_upper_limit := 0, mode := "match" }

/-- The query q9 with the period window widened from (1,1) to (2,3). -/
def q9wide : Args :=
  { input_period := 9, period_lower_limit := 2, period_upper_limit := 3,
    ls := some (1/2), mode := "match" }

/-- A query whose period box on cat9 is empty: input_period 15. -/
def q9far : Args :=
  { input_period := 15, ls := some (1/2), mode := "match" }

/-- A query with a valid ls and t but a negative supplied snr. -/
def aInvalidSnr : Args :=
  { input_period := 9, ls := some (1/10), t := some 5, snr := some (-1),
    mode := "match" }

/-!
Helper lemmas shared by the claim theorems.
-/

theorem validArgs_iff {a : Args} :
    ValidArgs a = true ↔
      periodOk a = true ∧ anyAux a = true ∧ modeOk a = true ∧
      lsValueOk a = true ∧ snrValueOk a = true := by
  simp [ValidArgs, Bool.and_eq_true, and_assoc]

theorem inWindow_true_iff {center lower upper : ℚ} {v : Option ℚ} :
    inWindow center lower upper v = true ↔
      ∃ x, v = some x ∧ center - lower < x ∧ x < center + upper := by
  cases v <;> simp [inWindow]

theorem reliability_eq_of_valid (df : List Row) {a : Args} (h : ValidArgs a = true) :
    calculate_reliability df a =
      .ok (if (auxFilters a (periodFilter a df)).length < 3 then none
           else some (((statusFilter a.mode (auxFilters a (periodFilter a df))).length : ℚ) /
             ((auxFilters a (periodFilter a df)).length : ℚ))) := by
  obtain ⟨h1, h2, h3, h4, h5⟩ := validArgs_iff.mp h
  simp only [calculate_reliability, auxFilters, h1, h2, h3, h4, h5, Bool.not_true,
    Bool.false_eq_true, if_false]
  split <;> rfl

theorem completeness_eq_of_valid (df : List Row) {a : Args} (h : ValidArgs a = true) :
    calculate_completeness df a =
      .ok (if (periodFilter a df).length < 3 then none
           else some (((statusFilter a.mode (auxFilters a (periodFilter a df))).length : ℚ) /
             ((periodFilter a df).length : ℚ))) := by
  obtain ⟨h1, h2, h3, h4, h5⟩ := validArgs_iff.mp h
  simp only [calculate_completeness, auxFilters, h1, h2, h3, h4, h5, Bool.not_true,
    Bool.false_eq_true, if_false]
  split <;> rfl

theorem lsFilter_sublist (a : Args) (df : List Row) : List.Sublist (lsFilter a df) df := by
  unfold lsFilter
  cases a.ls
  · exact List.Sublist.refl df
  · exact List.filter_sublist df

theorem tFilter_sublist (a : Args) (df : List Row) : List.Sublist (tFilter a df) df := by
  unfold tFilter
  cases a.t
  · exact List.Sublist.refl df
  · exact List.filter_sublist df

theorem snrFilter_sublist (a : Args) (df : List Row) : List.Sublist (snrFilter a df) df := by
  unfold snrFilter
  cases a.snr
  · exact List.Sublist.refl df
  · exact List.filter_sublist df

theorem auxFilters_sublist (a : Args) (df : List Row) : List.Sublist (auxFilters a df) df :=
  ((snrFilter_sublist a _).trans (tFilter_sublist a _)).trans (lsFilter_sublist a df)

theorem statusFilter_sublist (mode : String) (df : List Row) :
    List.Sublist (statusFilter mode df) df := by
  unfold statusFilter
  split
  · exact List.filter_sublist df
  split
  · exact List.filter_sublist df
  · exact List.filter_sublist df

theorem tFilter_nil (a : Args) : tFilter a [] = [] := by
  unfold tFilter
  cases a.t <;> rfl

theorem snrFilter_nil (a : Args) : snrFilter a [] = [] := by
  unfold snrFilter
  cases a.snr <;> rfl

theorem auxFilters_nil (a : Args) : auxFilters a [] = [] := by
  unfold auxFilters lsFilter
  cases a.ls <;> simp [tFilter_nil, snrFilter_nil]

theorem periodFilter_eq_boxSpec (a : Args) (df : List Row) :
    periodFilter a df =
      boxFilterSpec a.input_period a.period_lower_limit a.period_upper_limit
        (fun r => r.prot_rh20) df := rfl

theorem auxFilters_eq_auxBoxSpec (a : Args) (tbl : List Row) :
    auxFilters a tbl = auxBoxSpec a tbl := by
  unfold auxFilters auxBoxSpec lsFilter tFilter snrFilter boxFilterSpec
  cases a.ls <;> cases a.t <;> cases a.snr <;> rfl

theorem statusFilter_eq_classifierSpec (mode : String) (tbl : List Row) :
    statusFilter mode tbl = statusClassifierSpec mode tbl := rfl

/-!
Claim theorems.
-/

/-- C1: for every catalog and valid query, calculate_completeness equals the
CompletenessEstimator of the specification: the period-only box is the
denominator population, the undefined sentinel is returned exactly when
that box has fewer than 3 rows, and otherwise the result is the
mode-matching count of the auxiliary-filtered rows divided by the
period-only count. -/
theorem c1_completeness_period_denominator (df : List Row) (a : Args)
    (h : ValidArgs a = true) :
    calculate_completeness df a = .ok (completenessSpec df a)
  ∧ (calculate_completeness df a = .ok none ↔ (periodFilter a df).length < 3) := by
  have hc := completeness_eq_of_valid df h
  constructor
  · rw [hc]
    simp only [completenessSpec, ← periodFilter_eq_boxSpec, ← auxFilters_eq_auxBoxSpec,
      ← statusFilter_eq_classifierSpec]
  · rw [hc]
    constructor
    · intro he
      by_contra hn
      rw [if_neg hn] at he
      simp at he
    · intro hlt
      rw [if_pos hlt]

theorem c1_witness :
    calculate_completeness cat8 (q8 "match") = .ok (completenessSpec cat8 (q8 "match"))
  ∧ (calculate_completeness cat8 (q8 "match") = .ok none ↔
      (periodFilter (q8 "match") cat8).length < 3) :=
  c1_completeness_period_denominator cat8 (q8 "match")
    (by norm_num [ValidArgs, periodOk, anyAux, modeOk, lsValueOk, snrValueOk, q8])

/-- C2: for every catalog and valid query, calculate_reliability equals the
ReliabilityEstimator of the specification: the fully filtered box is both
the population and the denominator, the undefined sentinel is returned
exactly when that box has fewer than 3 rows, so 2 rows give the sentinel
and 3 rows give a real ratio. -/
theorem c2_reliability_boxed_denominator (df : List Row) (a : Args)
    (h : ValidArgs a = true) :
    calculate_reliability df a = .ok (reliabilitySpec df a)
  ∧ (calculate_reliability df a = .ok none ↔
      (auxFilters a (periodFilter a df)).length < 3)
  ∧ ((auxFilters a (periodFilter a df)).length = 2 →
      calculate_reliability df a = .ok none)
  ∧ ((auxFilters a (periodFilter a df)).length = 3 →
      calculate_reliability df a =
        .ok (some (((statusFilter a.mode (auxFilters a (periodFilter a df))).length : ℚ) / 3))) := by
  have hr := reliability_eq_of_valid df h
  refine ⟨?_, ?_, ?_, ?_⟩
  · rw [hr]
    simp only [reliabilitySpec, ← periodFilter_eq_boxSpec, ← auxFilters_eq_auxBoxSpec,
      ← statusFilter_eq_classifierSpec]
  · rw [hr]
    constructor
    · intro he
      by_contra hn
      rw [if_neg hn] at he
      simp at he
    · intro hlt
      rw [if_pos hlt]
  · intro h2
    rw [hr, if_pos (by omega)]
  · intro h3
    rw [hr, if_neg (by omega), h3]
    norm_num

theorem c2_witness :
    calculate_reliability cat8 (q8 "match") = .ok (reliabilitySpec cat8 (q8 "match"))
  ∧ (calculate_reliability cat8 (q8 "match") = .ok none ↔
      (auxFilters (q8 "match") (periodFilter (q8 "match") cat8)).length < 3)
  ∧ ((auxFilters (q8 "match") (periodFilter (q8 "match") cat8)).length = 2 →
      calculate_reliability cat8 (q8 "match") = .ok none)
  ∧ ((auxFilters (q8 "match") (periodFilter (q8 "match") cat8)).length = 3 →
      calculate_reliability cat8 (q8 "match") =
        .ok (some (((statusFilter (q8 "match").mode
          (auxFilters (q8 "match") (periodFilter (q8 "match") cat8))).length : ℚ) / 3))) :=
  c2_reliability_boxed_denominator cat8 (q8 "match")
    (by norm_num [ValidArgs, periodOk, anyAux, modeOk, lsValueOk, snrValueOk, q8])

/-- C8: on the 5-row scenario catalog (periods 8.5, 9.0, 9.4, 9.6, 15, all
match but one not_recovered) with input_period 9 and ls 0.1 under the 0.05
window, 4 rows land in the box and reliability is 0.75 for mode match,
0.75 for mode recovery and 0.0 for mode alias. -/
theorem c8_scenario :
    (auxFilters (q8 "match") (periodFilter (q8 "match") cat8)).length = 4
  ∧ calculate_reliability cat8 (q8 "match") = .ok (some (3/4))
  ∧ calculate_reliability cat8 (q8 "recovery") = .ok (some (3/4))
  ∧ calculate_reliability cat8 (q8 "alias") = .ok (some 0) := by
  refine ⟨?_, ?_, ?_, ?_⟩ <;>
    norm_num +decide [calculate_reliability, auxFilters, cat8, q8, periodFilter, lsFilter,
      tFilter, snrFilter, statusFilter, inWindow, periodOk, anyAux, modeOk, lsValueOk,
      snrValueOk, List.filter]

/-- C4: on every axis, both estimators keep a row iff its value on that axis
is present and lies strictly inside the open interval
(center - lower, center + upper); a missing (NaN) value is excluded. -/
theorem c4_strict_open_windows (a : Args) (df : List Row) (r : Row) :
    (r ∈ periodFilter a df ↔ r ∈ df ∧ ∃ x, r.prot_rh20 = some x ∧
        a.input_period - a.period_lower_limit < x ∧ x < a.input_period + a.period_upper_limit)
  ∧ (∀ l, a.ls = some l → (r ∈ lsFilter a df ↔ r ∈ df ∧ ∃ x, r.power = some x ∧
        l - a.ls_lower_limit < x ∧ x < l + a.ls_upper_limit))
  ∧ (∀ v, a.t = some v → (r ∈ tFilter a df ↔ r ∈ df ∧ ∃ x, r.Tmag = some x ∧
        v - a.t_lower_limit < x ∧ x < v + a.t_upper_limit))
  ∧ (∀ s, a.snr = some s → (r ∈ snrFilter a df ↔ r ∈ df ∧ ∃ x, r.snr = some x ∧
        s - a.snr_lower_limit < x ∧ x < s + a.snr_upper_limit)) := by
  refine ⟨?_, ?_, ?_, ?_⟩
  · simp [periodFilter, List.mem_filter, inWindow_true_iff]
  · intro l hl
    simp [lsFilter, hl, List.mem_filter, inWindow_true_iff]
  · intro v hv
    simp [tFilter, hv, List.mem_filter, inWindow_true_iff]
  · intro s hs
    simp [snrFilter, hs, List.mem_filter, inWindow_true_iff]

theorem c4_witness :
    (⟨some 9, some (1/10), none, none, "match"⟩ : Row) ∈ lsFilter (q8 "match") cat8 ↔
      (⟨some 9, some (1/10), none, none, "match"⟩ : Row) ∈ cat8 ∧
      ∃ x, Row.power ⟨some 9, some (1/10), none, none, "match"⟩ = some x ∧
        1/10 - (q8 "match").ls_lower_limit < x ∧ x < 1/10 + (q8 "match").ls_upper_limit :=
  (c4_strict_open_windows (q8 "match") cat8 ⟨some 9, some (1/10), none, none, "match"⟩).2.1
    (1/10) rfl

/-- C5: the status classification used by both estimators keeps exactly the
rows with status match in mode match, status alias in mode alias, and any
status other than not_recovered in mode recovery; membership depends only
on the mode and the status of the row. -/
theorem c5_status_classifier (mode : String) (tbl : List Row) (r : Row) :
    (mode = "match" → (r ∈ statusFilter mode tbl ↔ r ∈ tbl ∧ r.status = "match"))
  ∧ (mode = "alias" → (r ∈ statusFilter mode tbl ↔ r ∈ tbl ∧ r.status = "alias"))
  ∧ (mode = "recovery" → (r ∈ statusFilter mode tbl ↔ r ∈ tbl ∧ r.status ≠ "not_recovered")) := by
  refine ⟨?_, ?_, ?_⟩ <;> intro hm <;> subst hm <;>
    simp +decide [statusFilter, List.mem_filter]

theorem c5_witness :
    (⟨some (47/5), some (1/10), none, none, "not_recovered"⟩ : Row) ∈ statusFilter "match" cat8 ↔
      (⟨some (47/5), some (1/10), none, none, "not_recovered"⟩ : Row) ∈ cat8 ∧
      Row.status ⟨some (47/5), some (1/10), none, none, "not_recovered"⟩ = "match" :=
  (c5_status_classifier "match" cat8 ⟨some (47/5), some (1/10), none, none, "not_recovered"⟩).1 rfl

/-- C6: for every catalog and valid query, both estimators return Except.ok
of either the sentinel none or a ratio between 0 and 1; too few rows after
filtering yields the sentinel, never an error. -/
theorem c6_results_in_unit_interval (df : List Row) (a : Args)
    (h : ValidArgs a = true) :
    (∃ v, calculate_reliability df a = .ok v ∧ ∀ q, v = some q → 0 ≤ q ∧ q ≤ 1)
  ∧ (∃ v, calculate_completeness df a = .ok v ∧ ∀ q, v = some q → 0 ≤ q ∧ q ≤ 1) := by
  constructor
  · refine ⟨_, reliability_eq_of_valid df h, ?_⟩
    intro q hq
    split at hq
    · simp at hq
    · rename_i hn
      rw [Option.some.injEq] at hq
      subst hq
      constructor
      · positivity
      · rw [div_le_one (by exact_mod_cast Nat.pos_of_ne_zero (by omega))]
        exact_mod_cast (statusFilter_sublist a.mode _).length_le
  · refine ⟨_, completeness_eq_of_valid df h, ?_⟩
    intro q hq
    split at hq
    · simp at hq
    · rename_i hn
      rw [Option.some.injEq] at hq
      subst hq
      constructor
      · positivity
      · rw [div_le_one (by exact_mod_cast Nat.pos_of_ne_zero (by omega))]
        exact_mod_cast
          ((statusFilter_sublist a.mode _).trans (auxFilters_sublist a _)).length_le

theorem c6_witness :
    (∃ v, calculate_reliability cat8 (q8 "match") = .ok v ∧
        ∀ q, v = some q → 0 ≤ q ∧ q ≤ 1)
  ∧ (∃ v, calculate_completeness cat8 (q8 "match") = .ok v ∧
        ∀ q, v = some q → 0 ≤ q ∧ q ≤ 1) :=
  c6_results_in_unit_interval cat8 (q8 "match")
    (by norm_num [ValidArgs, periodOk, anyAux, modeOk, lsValueOk, snrValueOk, q8])

theorem inWindow_mono {center lo hi lo2 hi2 : ℚ} (hlo : lo ≤ lo2) (hhi : hi ≤ hi2)
    {v : Option ℚ} (h : inWindow center lo hi v = true) :
    inWindow center lo2 hi2 v = true := by
  rcases inWindow_true_iff.mp h with ⟨x, hx, h1, h2⟩
  exact inWindow_true_iff.mpr ⟨x, hx, by linarith, by linarith⟩

theorem filter_sublist_filter {α : Type} {p q : α → Bool} {X Y : List α}
    (hXY : List.Sublist X Y) (h : ∀ x, p x = true → q x = true) :
    List.Sublist (X.filter p) (Y.filter q) :=
  (List.monotone_filter_right X fun x hx => h x hx).trans (hXY.filter q)

theorem widenLe_iff {a b : Args} :
    widenLe a b = true ↔
      b.input_period = a.input_period ∧ b.ls = a.ls ∧ b.t = a.t ∧ b.snr = a.snr ∧
      b.mode = a.mode ∧
      a.period_lower_limit ≤ b.period_lower_limit ∧
      a.period_upper_limit ≤ b.period_upper_limit ∧
      a.ls_lower_limit ≤ b.ls_lower_limit ∧ a.ls_upper_limit ≤ b.ls_upper_limit ∧
      a.t_lower_limit ≤ b.t_lower_limit ∧ a.t_upper_limit ≤ b.t_upper_limit ∧
      a.snr_lower_limit ≤ b.snr_lower_limit ∧ a.snr_upper_limit ≤ b.snr_upper_limit := by
  simp [widenLe, Bool.and_eq_true, and_assoc]

/-- C7: widening any window limit on a fixed catalog can only add rows:
the period-only box and the fully filtered box of the narrower query are
sublists of those of the wider query, so both denominator row counts are
monotonically non-decreasing. -/
theorem c7_window_widening_monotone (df : List Row) (a b : Args)
    (h : widenLe a b = true) :
    List.Sublist (periodFilter a df) (periodFilter b df)
  ∧ (periodFilter a df).length ≤ (periodFilter b df).length
  ∧ List.Sublist (auxFilters a (periodFilter a df)) (auxFilters b (periodFilter b df))
  ∧ (auxFilters a (periodFilter a df)).length ≤
      (auxFilters b (periodFilter b df)).length := by
  obtain ⟨hp, hls, ht, hsnr, hm, h1, h2, h3, h4, h5, h6, h7, h8⟩ := widenLe_iff.mp h
  have hper : List.Sublist (periodFilter a df) (periodFilter b df) := by
    unfold periodFilter
    rw [hp]
    exact List.monotone_filter_right df fun r hr => inWindow_mono h1 h2 hr
  have hlsf : ∀ X Y, List.Sublist X Y → List.Sublist (lsFilter a X) (lsFilter b Y) := by
    intro X Y hXY
    unfold lsFilter
    rw [hls]
    cases a.ls with
    | none => exact hXY
    | some l => exact filter_sublist_filter hXY fun r hr => inWindow_mono h3 h4 hr
  have htf : ∀ X Y, List.Sublist X Y → List.Sublist (tFilter a X) (tFilter b Y) := by
    intro X Y hXY
    unfold tFilter
    rw [ht]
    cases a.t with
    | none => exact hXY
    | some v => exact filter_sublist_filter hXY fun r hr => inWindow_mono h5 h6 hr
  have hsf : ∀ X Y, List.Sublist X Y → List.Sublist (snrFilter a X) (snrFilter b Y) := by
    intro X Y hXY
    unfold snrFilter
    rw [hsnr]
    cases a.snr with
    | none => exact hXY
    | some s => exact filter_sublist_filter hXY fun r hr => inWindow_mono h7 h8 hr
  have hbox : List.Sublist (auxFilters a (periodFilter a df))
      (auxFilters b (periodFilter b df)) := by
    unfold auxFilters
    exact hsf _ _ (htf _ _ (hlsf _ _ hper))
  exact ⟨hper, hper.length_le, hbox, hbox.length_le⟩

theorem c7_witness :
    List.Sublist (periodFilter q9 cat9) (periodFilter q9wide cat9)
  ∧ (periodFilter q9 cat9).length ≤ (periodFilter q9wide cat9).length
  ∧ List.Sublist (auxFilters q9 (periodFilter q9 cat9))
      (auxFilters q9wide (periodFilter q9wide cat9))
  ∧ (auxFilters q9 (periodFilter q9 cat9)).length ≤
      (auxFilters q9wide (periodFilter q9wide cat9)).length :=
  c7_window_widening_monotone cat9 q9 q9wide (by norm_num [widenLe, q9, q9wide])

theorem validArgs_q9 : ValidArgs q9 = true := by
  norm_num [ValidArgs, periodOk, anyAux, modeOk, lsValueOk, snrValueOk, q9]

theorem rel_cat9_q9_none : calculate_reliability cat9 q9 = .ok none := by
  norm_num +decide [calculate_reliability, cat9, q9, periodFilter, lsFilter, tFilter,
    snrFilter, statusFilter, inWindow, periodOk, anyAux, modeOk, lsValueOk, snrValueOk,
    List.filter]

theorem comp_cat9_q9_ratio : calculate_completeness cat9 q9 = .ok (some (2/3)) := by
  norm_num +decide [calculate_completeness, cat9, q9, periodFilter, lsFilter, tFilter,
    snrFilter, statusFilter, inWindow, periodOk, anyAux, modeOk, lsValueOk, snrValueOk,
    List.filter]

/-- C9: for identical valid arguments the fully filtered reliability box is
a sublist of the period-only completeness box, so whenever completeness is
the undefined sentinel so is reliability; the converse implication is
false in general. -/
theorem c9_reliability_box_inside_period_box (df : List Row) (a : Args)
    (h : ValidArgs a = true) :
    List.Sublist (auxFilters a (periodFilter a df)) (periodFilter a df)
  ∧ (calculate_completeness df a = .ok none → calculate_reliability df a = .ok none)
  ∧ ¬ (∀ df2 a2, ValidArgs a2 = true → calculate_reliability df2 a2 = .ok none →
        calculate_completeness df2 a2 = .ok none) := by
  refine ⟨auxFilters_sublist a _, ?_, ?_⟩
  · intro hc
    rw [completeness_eq_of_valid df h] at hc
    rw [reliability_eq_of_valid df h]
    by_cases hlt : (periodFilter a df).length < 3
    · have hb : (auxFilters a (periodFilter a df)).length < 3 :=
        lt_of_le_of_lt (auxFilters_sublist a _).length_le hlt
      rw [if_pos hb]
    · rw [if_neg hlt] at hc
      simp at hc
  · intro hall
    have h2 := hall cat9 q9 validArgs_q9 rel_cat9_q9_none
    have h3 := comp_cat9_q9_ratio.symm.trans h2
    simp at h3

theorem c9_witness : calculate_reliability cat9 q9far = .ok none :=
  (c9_reliability_box_inside_period_box cat9 q9far
    (by norm_num [ValidArgs, periodOk, anyAux, modeOk, lsValueOk, snrValueOk, q9far])).2.1
    (by norm_num +decide [calculate_completeness, cat9, q9far, periodFilter, lsFilter,
      tFilter, snrFilter, statusFilter, inWindow, periodOk, anyAux, modeOk, lsValueOk,
      snrValueOk, List.filter])

theorem statusFilter_nil (mode : String) : statusFilter mode [] = [] := by
  unfold statusFilter
  split
  · rfl
  split <;> rfl

/-- C10 counterexample: the query q10 supplies a valid ls with an empty ls
window (both limits 0, so lower + upper is 0): it passes validation, yet
calculate_completeness on cat9 returns the ratio 0, not the undefined
sentinel, refuting the claim that an empty window always leads to the
sentinel. -/
theorem c10_counterexample :
    ValidArgs q10 = true
  ∧ q10.ls_lower_limit + q10.ls_upper_limit ≤ 0
  ∧ calculate_completeness cat9 q10 = .ok (some 0) := by
  refine ⟨?_, ?_, ?_⟩
  · norm_num [ValidArgs, periodOk, anyAux, modeOk, lsValueOk, snrValueOk, q10]
  · norm_num [q10]
  · norm_num +decide [calculate_completeness, cat9, q10, periodFilter, lsFilter, tFilter,
      snrFilter, statusFilter, inWindow, periodOk, anyAux, modeOk, lsValueOk, snrValueOk,
      List.filter]

theorem filter_inWindow_nil {c lo hi : ℚ} (hw : lo + hi ≤ 0)
    (proj : Row → Option ℚ) (X : List Row) :
    X.filter (fun r => inWindow c lo hi (proj r)) = [] := by
  rw [List.filter_eq_nil_iff]
  intro r hr hwin
  rcases inWindow_true_iff.mp hwin with ⟨x, _, hx1, hx2⟩
  linarith

/-- C10 (amended): window limits are never validated: any limits, zero or
negative included, give Except.ok for both estimators; an empty period
window yields the undefined sentinel for both; an empty window on any
supplied auxiliary axis (ls, t or snr) yields the undefined sentinel for
reliability, while completeness then returns the ratio 0 whenever the
period-only box still has at least 3 rows and the sentinel otherwise. -/
theorem c10_window_limits_unvalidated (df : List Row) (a : Args)
    (h : ValidArgs a = true) :
    (∃ v, calculate_reliability df a = .ok v)
  ∧ (∃ v, calculate_completeness df a = .ok v)
  ∧ (a.period_lower_limit + a.period_upper_limit ≤ 0 →
      calculate_reliability df a = .ok none ∧ calculate_completeness df a = .ok none)
  ∧ ((a.ls ≠ none ∧ a.ls_lower_limit + a.ls_upper_limit ≤ 0) ∨
     (a.t ≠ none ∧ a.t_lower_limit + a.t_upper_limit ≤ 0) ∨
     (a.snr ≠ none ∧ a.snr_lower_limit + a.snr_upper_limit ≤ 0) →
      calculate_reliability df a = .ok none
      ∧ (3 ≤ (periodFilter a df).length →
          calculate_completeness df a = .ok (some 0))
      ∧ ((periodFilter a df).length < 3 →
          calculate_completeness df a = .ok none)) := by
  refine ⟨⟨_, reliability_eq_of_valid df h⟩, ⟨_, completeness_eq_of_valid df h⟩, ?_, ?_⟩
  · intro hw
    have hpf : periodFilter a df = [] := by
      unfold periodFilter
      exact filter_inWindow_nil hw (fun r => r.prot_rh20) df
    constructor
    · rw [reliability_eq_of_valid df h, hpf, auxFilters_nil]
      norm_num
    · rw [completeness_eq_of_valid df h, hpf]
      norm_num
  · intro hcase
    have haux : ∀ X : List Row, auxFilters a X = [] := by
      intro X
      rcases hcase with ⟨hls, hw⟩ | ⟨ht, hw⟩ | ⟨hsnr, hw⟩
      · obtain ⟨l, hl⟩ := Option.ne_none_iff_exists'.mp hls
        have hlsf : lsFilter a X = [] := by
          unfold lsFilter
          rw [hl]
          exact filter_inWindow_nil hw (fun r => r.power) X
        unfold auxFilters
        rw [hlsf, tFilter_nil, snrFilter_nil]
      · obtain ⟨v, hv⟩ := Option.ne_none_iff_exists'.mp ht
        have htf : tFilter a (lsFilter a X) = [] := by
          unfold tFilter
          rw [hv]
          exact filter_inWindow_nil hw (fun r => r.Tmag) _
        unfold auxFilters
        rw [htf, snrFilter_nil]
      · obtain ⟨s, hs⟩ := Option.ne_none_iff_exists'.mp hsnr
        unfold auxFilters snrFilter
        rw [hs]
        exact filter_inWindow_nil hw (fun r => r.snr) _
    refine ⟨?_, ?_, ?_⟩
    · rw [reliability_eq_of_valid df h, haux]
      norm_num
    · intro h3
      rw [completeness_eq_of_valid df h, haux, statusFilter_nil, if_neg (by omega)]
      norm_num
    · intro hlt
      rw [completeness_eq_of_valid df h, if_pos hlt]

theorem c10_witness :
    calculate_reliability cat9 q10 = .ok none
  ∧ calculate_completeness cat9 q10 = .ok (some 0) :=
  ⟨((c10_window_limits_unvalidated cat9 q10
      (by norm_num [ValidArgs, periodOk, anyAux, modeOk, lsValueOk, snrValueOk, q10])).2.2.2
      (Or.inl ⟨by simp [q10], by norm_num [q10]⟩)).1,
   ((c10_window_limits_unvalidated cat9 q10
      (by norm_num [ValidArgs, periodOk, anyAux, modeOk, lsValueOk, snrValueOk, q10])).2.2.2
      (Or.inl ⟨by simp [q10], by norm_num [q10]⟩)).2.1
      (by norm_num +decide [periodFilter, cat9, q10, inWindow, List.filter])⟩

/-- C3 counterexample: the query aInvalidLs has a valid period, a valid mode
and a supplied ls of 2, outside (0,1); its execution trace shows the period
filter executing before the InvalidPower failure is raised, so not every
validation failure precedes all filtering; both functions raise that
failure. -/
theorem c3_counterexample :
    execTrace aInvalidLs = [Ev.filterStep "prot_rh20", Ev.checkFail ErrKind.invalidPower]
  ∧ noFilterBeforeFailure (execTrace aInvalidLs) = false
  ∧ calculate_reliability cat8 aInvalidLs = .error ErrKind.invalidPower
  ∧ calculate_completeness cat8 aInvalidLs = .error ErrKind.invalidPower := by
  refine ⟨?_, ?_, ?_, ?_⟩ <;>
    norm_num +decide [execTrace, auxTraceLs, auxTraceT, auxTraceSnr, noFilterBeforeFailure,
      aInvalidLs, periodOk, anyAux, modeOk, lsValueOk, snrValueOk, calculate_reliability,
      calculate_completeness]

/-- C3 (amended): InvalidPeriod, NoAuxiliaryParameter and InvalidMode are
raised before any filtering; InvalidPower is raised after the period filter
has executed but before any auxiliary filter; InvalidSNR is raised after
the period filter and any supplied power and magnitude filters but before
the snr filter; every failure aborts the invocation, and a valid query
raises no failure at all. -/
theorem c3_validation_order (a : Args) :
    (periodOk a = false → execTrace a = [Ev.checkFail ErrKind.invalidPeriod])
  ∧ (periodOk a = true → anyAux a = false →
      execTrace a = [Ev.checkFail ErrKind.noAuxiliaryParameter])
  ∧ (periodOk a = true → anyAux a = true → modeOk a = false →
      execTrace a = [Ev.checkFail ErrKind.invalidMode])
  ∧ (periodOk a = true → anyAux a = true → modeOk a = true → lsValueOk a = false →
      execTrace a = [Ev.filterStep "prot_rh20", Ev.checkFail ErrKind.invalidPower])
  ∧ (periodOk a = true → anyAux a = true → modeOk a = true → lsValueOk a = true →
      snrValueOk a = false →
      ∃ pre, List.Sublist pre [Ev.filterStep "power", Ev.filterStep "Tmag"] ∧
        execTrace a = Ev.filterStep "prot_rh20" :: (pre ++ [Ev.checkFail ErrKind.invalidSNR]))
  ∧ (ValidArgs a = true → ∀ e, Ev.checkFail e ∉ execTrace a) := by
  refine ⟨?_, ?_, ?_, ?_, ?_, ?_⟩
  · intro h
    simp [execTrace, h]
  · intro h1 h2
    simp [execTrace, h1, h2]
  · intro h1 h2 h3
    simp [execTrace, h1, h2, h3]
  · intro h1 h2 h3 h4
    cases hls : a.ls with
    | none => simp [lsValueOk, hls] at h4
    | some l =>
      have hnl : ¬(0 < l ∧ l < 1) := by
        intro hc
        simp [lsValueOk, hls, hc.1, hc.2] at h4
      simp [execTrace, h1, h2, h3, auxTraceLs, hls, hnl]
  · intro h1 h2 h3 h4 h5
    cases hsnr : a.snr with
    | none => simp [snrValueOk, hsnr] at h5
    | some s =>
      have hns : ¬ 0 < s := by
        intro hc
        simp [snrValueOk, hsnr, hc] at h5
      have htr : auxTraceSnr a = [Ev.checkFail ErrKind.invalidSNR] := by
        simp [auxTraceSnr, hsnr, hns]
      cases hls : a.ls with
      | none =>
        cases ht : a.t with
        | none =>
          exact ⟨[], List.nil_sublist _, by
            simp [execTrace, h1, h2, h3, auxTraceLs, hls, auxTraceT, ht, htr]⟩
        | some v =>
          refine ⟨[Ev.filterStep "Tmag"], (List.Sublist.refl _).cons _, ?_⟩
          simp [execTrace, h1, h2, h3, auxTraceLs, hls, auxTraceT, ht, htr]
      | some l =>
        have hl : 0 < l ∧ l < 1 := by
          have h4c := h4
          simp [lsValueOk, hls] at h4c
          exact h4c
        cases ht : a.t with
        | none =>
          refine ⟨[Ev.filterStep "power"], (List.nil_sublist _).cons₂ _, ?_⟩
          simp [execTrace, h1, h2, h3, auxTraceLs, hls, hl.1, hl.2, auxTraceT, ht, htr]
        | some v =>
          refine ⟨[Ev.filterStep "power", Ev.filterStep "Tmag"], List.Sublist.refl _, ?_⟩
          simp [execTrace, h1, h2, h3, auxTraceLs, hls, hl.1, hl.2, auxTraceT, ht, htr]
  · intro hv e
    obtain ⟨h1, h2, h3, h4, h5⟩ := validArgs_iff.mp hv
    cases hls : a.ls with
    | none =>
      cases ht : a.t with
      | none =>
        cases hsnr : a.snr with
        | none =>
          simp [execTrace, h1, h2, h3, auxTraceLs, hls, auxTraceT, ht, auxTraceSnr, hsnr]
        | some s =>
          have hs : 0 < s := by
            have h5c := h5
            simp [snrValueOk, hsnr] at h5c
            exact h5c
          simp [execTrace, h1, h2, h3, auxTraceLs, hls, auxTraceT, ht, auxTraceSnr, hsnr, hs]
      | some v =>
        cases hsnr : a.snr with
        | none =>
          simp [execTrace, h1, h2, h3, auxTraceLs, hls, auxTraceT, ht, auxTraceSnr, hsnr]
        | some s =>
          have hs : 0 < s := by
            have h5c := h5
            simp [snrValueOk, hsnr] at h5c
            exact h5c
          simp [execTrace, h1, h2, h3, auxTraceLs, hls, auxTraceT, ht, auxTraceSnr, hsnr, hs]
    | some l =>
      have hl : 0 < l ∧ l < 1 := by
        have h4c := h4
        simp [lsValueOk, hls] at h4c
        exact h4c
      cases ht : a.t with
      | none =>
        cases hsnr : a.snr with
        | none =>
          simp [execTrace, h1, h2, h3, auxTraceLs, hls, hl.1, hl.2, auxTraceT, ht,
            auxTraceSnr, hsnr]
        | some s =>
          have hs : 0 < s := by
            have h5c := h5
            simp [snrValueOk, hsnr] at h5c
            exact h5c
          simp [execTrace, h1, h2, h3, auxTraceLs, hls, hl.1, hl.2, auxTraceT, ht,
            auxTraceSnr, hsnr, hs]
      | some v =>
        cases hsnr : a.snr with
        | none =>
          simp [execTrace, h1, h2, h3, auxTraceLs, hls, hl.1, hl.2, auxTraceT, ht,
            auxTraceSnr, hsnr]
        | some s =>
          have hs : 0 < s := by
            have h5c := h5
            simp [snrValueOk, hsnr] at h5c
            exact h5c
          simp [execTrace, h1, h2, h3, auxTraceLs, hls, hl.1, hl.2, auxTraceT, ht,
            auxTraceSnr, hsnr, hs]

theorem c3_witness :
    ∃ pre, List.Sublist pre [Ev.filterStep "power", Ev.filterStep "Tmag"] ∧
      execTrace aInvalidSnr =
        Ev.filterStep "prot_rh20" :: (pre ++ [Ev.checkFail ErrKind.invalidSNR]) :=
  (c3_validation_order aInvalidSnr).2.2.2.2.1
    (by norm_num [periodOk, aInvalidSnr])
    (by norm_num [anyAux, aInvalidSnr])
    (by norm_num [modeOk, aInvalidSnr])
    (by norm_num [lsValueOk, aInvalidSnr])
    (by norm_num [snrValueOk, aInvalidSnr])
